import Mathlib

/-!
Shallow embedding of the Satteli change-detection and health-scoring engine.

Sources embedded:
- `src/sentinel-hub/deforestation_detection.py`: `classify_severity`,
  `detect_deforestation`, `detect_fire_hotspots`, `classify_plant_health`,
  `get_health_recommendations`, `analyze_plant_health`.
- `src/gee/deforestation_detection.py`: `classify_severity`,
  `detect_fire_hotspots` (the duplicated backend).

Modelling conventions:
- Python floats are embedded as `ℚ` (the engine only adds, subtracts,
  multiplies, divides and compares; no transcendental operations occur).
- Python `None` / `Optional[float]` is `Option ℚ`.
- Python truthiness on an optional float (`if x and ...`) is embedded
  literally: the branch is taken only when the value is present and nonzero.
- The network-fetched statistics (`get_ndvi_stats`) and the clock reading
  (`datetime.now()`) are passed to the embedded functions as explicit inputs;
  dates are modelled as integer day numbers, so `today.strftime(...)` becomes
  the day number itself and a period string becomes a pair of day numbers.
-/

namespace Satteli

/-- Truncation toward zero, which is what Python's `int()` does on a float. -/
def pyInt (q : ℚ) : Int := if 0 ≤ q then ⌊q⌋ else ⌈q⌉

/-- The record returned by `get_ndvi_stats` (sentinel-hub backend): mean,
minimum and maximum NDVI over a period, each `None` when no data was
available.  The `count` field is never read by the detection logic and is
omitted. -/
structure NdviStats where
  mean : Option ℚ
  min : Option ℚ
  max : Option ℚ

/-- The dataclass `DeforestationResult` of the sentinel-hub backend.  Date
fields are day numbers; a period is a (start, end) pair of day numbers. -/
structure DeforestationResult where
  customer_id : String
  boundary_name : String
  analysis_date : Int
  period_previous : Int × Int
  period_recent : Int × Int
  boundary_area_ha : ℚ
  mean_ndvi_previous : Option ℚ
  mean_ndvi_recent : Option ℚ
  ndvi_change : Option ℚ
  deforestation_area_ha : Option ℚ
  deforestation_percentage : Option ℚ
  alert_triggered : Bool
  severity : Option String
  coordinates : Option (ℚ × ℚ)

/-- The function `classify_severity` of the sentinel-hub backend
(src/sentinel-hub/deforestation_detection.py lines 405-414). -/
def classify_severity (area_ha : ℚ) : String :=
  if area_ha ≥ 10 then "critical"
  else if area_ha ≥ 5 then "high"
  else if area_ha ≥ 1 then "medium"
  else "low"

/-- The function `classify_severity` of the gee backend
(src/gee/deforestation_detection.py lines 200-209); its body is
line-for-line identical to the sentinel-hub one. -/
def classify_severity_gee (area_ha : ℚ) : String :=
  if area_ha ≥ 10 then "critical"
  else if area_ha ≥ 5 then "high"
  else if area_ha ≥ 1 then "medium"
  else "low"

/-- The pure core of `detect_deforestation`
(src/sentinel-hub/deforestation_detection.py lines 268-372).  The boundary
area (computed by `geojson_to_bbox`), the two periods' statistics (fetched by
`get_ndvi_stats`) and the clock reading `today = datetime.now()` are explicit
inputs; everything after them is the source's decision logic, mutation step by
mutation step. -/
def detect_deforestation (today : Int) (customer_id boundary_name : String)
    (boundary_area_ha : ℚ) (stats_previous stats_recent : NdviStats)
    (days_back : Int) (ndvi_threshold min_area_ha : ℚ) : DeforestationResult :=
  let recent_end := today
  let recent_start := today - days_back
  let previous_end := recent_start
  let previous_start := previous_end - days_back
  let base : DeforestationResult := {
    customer_id := customer_id
    boundary_name := boundary_name
    analysis_date := today
    period_previous := (previous_start, previous_end)
    period_recent := (recent_start, recent_end)
    boundary_area_ha := boundary_area_ha
    mean_ndvi_previous := stats_previous.mean
    mean_ndvi_recent := stats_recent.mean
    ndvi_change := none
    deforestation_area_ha := none
    deforestation_percentage := none
    alert_triggered := false
    severity := none
    coordinates := none }
  match stats_previous.mean, stats_recent.mean with
  | some prevMean, some recentMean =>
    let change := prevMean - recentMean
    if change > ndvi_threshold ∧ prevMean > 4/10 then
      let pct := min 100 (change / prevMean * 100)
      let area := boundary_area_ha * (pct / 100)
      if area ≥ min_area_ha then
        { base with
          ndvi_change := some change
          deforestation_percentage := some pct
          deforestation_area_ha := some area
          alert_triggered := true
          severity := some (classify_severity area) }
      else
        { base with
          ndvi_change := some change
          deforestation_percentage := some pct
          deforestation_area_ha := some area }
    else
      { base with ndvi_change := some change }
  | _, _ => base

/-- The dict built by `detect_fire_hotspots` of the sentinel-hub backend. -/
structure FireResult where
  customer_id : String
  boundary_name : String
  analysis_date : Int
  period_days : Int
  fire_detections : Nat
  alert_triggered : Bool
  severity : Option String

/-- The pure core of `detect_fire_hotspots` of the sentinel-hub backend
(src/sentinel-hub/deforestation_detection.py lines 417-475).  The hotspot
count parsed from the FIRMS response (`max(0, len(lines) - 1)`, hence a
natural number) and the clock reading are explicit inputs. -/
def detect_fire_hotspots (today : Int) (customer_id boundary_name : String)
    (days_back : Int) (fire_count : Nat) : FireResult :=
  { customer_id := customer_id
    boundary_name := boundary_name
    analysis_date := today
    period_days := days_back
    fire_detections := fire_count
    alert_triggered := decide (fire_count > 0)
    severity :=
      if fire_count ≥ 5 then some "critical"
      else if fire_count > 0 then some "high"
      else none }

/-- The dict built by `detect_fire_hotspots` of the gee backend.  Its
`severity` key is only ever inserted inside the alert branch; `none` models
the key being absent from the dict. -/
structure FireResultGee where
  customer_id : String
  boundary_name : String
  analysis_date : Int
  period : Int × Int
  fire_detections : Nat
  alert_triggered : Bool
  severity : Option String

/-- The pure core of `detect_fire_hotspots` of the gee backend
(src/gee/deforestation_detection.py lines 212-267).  The pixel count (coerced
to 0 by `ee.Algorithms.If(count, count, 0)` when missing, hence a natural
number) and the clock reading are explicit inputs.  The guard embeds the
source's `if results[...] and results[...] > 0:` truthiness test. -/
def detect_fire_hotspots_gee (today : Int) (customer_id boundary_name : String)
    (days_back : Int) (count_value : Nat) : FireResultGee :=
  let base : FireResultGee := {
    customer_id := customer_id
    boundary_name := boundary_name
    analysis_date := today
    period := (today - days_back, today)
    fire_detections := count_value
    alert_triggered := false
    severity := none }
  if count_value ≠ 0 ∧ count_value > 0 then
    { base with
      alert_triggered := true
      severity := some (if count_value ≥ 5 then "critical" else "high") }
  else base

/-- The fire alert policy in the words of the spec, for comparison with both
backends: severity is critical when the count is at least 5, high when the
count is positive but below 5, and null when the count is zero. -/
def fireSeveritySpec (count : Nat) : Option String :=
  if count ≥ 5 then some "critical"
  else if count > 0 then some "high"
  else none

/-- The per-band score expression of `classify_plant_health`
(src/sentinel-hub/deforestation_detection.py lines 536-547) before Python's
`int()` truncation: the same band selection, with the raw rational value of
the selected band's formula. -/
def healthScoreFormula (ndvi : ℚ) : ℚ :=
  if ndvi ≥ 7/10 then min 100 (70 + (ndvi - 7/10) * 100)
  else if ndvi ≥ 5/10 then 50 + (ndvi - 5/10) * 100
  else if ndvi ≥ 4/10 then 40 + (ndvi - 4/10) * 100
  else if ndvi ≥ 3/10 then 25 + (ndvi - 3/10) * 150
  else if ndvi ≥ 2/10 then 15 + (ndvi - 2/10) * 100
  else max 0 (ndvi * 75)

/-- The function `classify_plant_health`
(src/sentinel-hub/deforestation_detection.py lines 520-547).  Note the
source's `None` branch returns the pair `('unknown', 0)`, a zero score. -/
def classify_plant_health (ndvi : Option ℚ) : String × Int :=
  match ndvi with
  | none => ("unknown", 0)
  | some v =>
    if v ≥ 7/10 then ("healthy", pyInt (min 100 (70 + (v - 7/10) * 100)))
    else if v ≥ 5/10 then ("healthy", pyInt (50 + (v - 5/10) * 100))
    else if v ≥ 4/10 then ("moderate", pyInt (40 + (v - 4/10) * 100))
    else if v ≥ 3/10 then ("stressed", pyInt (25 + (v - 3/10) * 150))
    else if v ≥ 2/10 then ("stressed", pyInt (15 + (v - 2/10) * 100))
    else ("critical", pyInt (max 0 (v * 75)))

/-- The function `get_health_recommendations`
(src/sentinel-hub/deforestation_detection.py lines 550-579).  The source's
`if ndvi_change and ndvi_change < -0.1`, `if ndvi and ndvi < 0.45` and
`if ndvi and ndvi > 0.8` guards are truthiness tests, embedded as a presence
test plus a nonzero test. -/
def get_health_recommendations (health_status : String) (ndvi : Option ℚ)
    (ndvi_change : Option ℚ) : List String :=
  if health_status = "critical" then
    ["URGENT: Immediate field inspection required",
     "Check for disease outbreak (Ganoderma, Basal Stem Rot)",
     "Assess irrigation/drainage issues",
     "Consider soil nutrient analysis"]
  else if health_status = "stressed" then
    ["Schedule field inspection within 1 week",
     "Check soil moisture levels",
     "Review fertilization program"] ++
    (match ndvi_change with
     | some c => if c ≠ 0 ∧ c < -1/10 then
         ["Rapid decline detected - investigate pest/disease"] else []
     | none => [])
  else if health_status = "moderate" then
    ["Monitor closely over next 2 weeks",
     "Consider targeted fertilizer application"] ++
    (match ndvi with
     | some x => if x ≠ 0 ∧ x < 45/100 then
         ["Young palms may need additional nutrients"] else []
     | none => [])
  else if health_status = "healthy" then
    ["Continue current management practices"] ++
    (match ndvi with
     | some x => if x ≠ 0 ∧ x > 8/10 then
         ["Excellent vegetation density"] else []
     | none => [])
  else []

/-- The dataclass `PlantHealthResult` of the sentinel-hub backend.  The
source always stores the integer returned by `classify_plant_health` in
`health_score`, so the field is an `Int` here. -/
structure PlantHealthResult where
  customer_id : String
  boundary_id : String
  boundary_name : String
  analysis_date : Int
  boundary_area_ha : ℚ
  mean_ndvi : Option ℚ
  min_ndvi : Option ℚ
  max_ndvi : Option ℚ
  ndvi_std : Option ℚ
  health_status : String
  health_score : Int
  baseline_ndvi : Option ℚ
  ndvi_change_from_baseline : Option ℚ
  stressed_area_ha : Option ℚ
  stressed_percentage : Option ℚ
  recommendations : List String
  alert_triggered : Bool
  severity : Option String

/-- The pure core of `analyze_plant_health`
(src/sentinel-hub/deforestation_detection.py lines 582-695).  The boundary
area, the current statistics and the clock reading are explicit inputs.  The
source's `if baseline_ndvi and mean_ndvi:` baseline comparison and its
`elif stressed_area_ha and stressed_area_ha > 10:` severity guard are
truthiness tests, embedded as a presence test plus a nonzero test; the
stressed-area block's `if min_ndvi is not None and mean_ndvi is not None:`
and `if ndvi_std and ndvi_std > 0:` guards are embedded as written. -/
def analyze_plant_health (today : Int) (customer_id boundary_id boundary_name : String)
    (boundary_area_ha : ℚ) (stats : NdviStats) (baseline_ndvi : Option ℚ)
    (stress_threshold : ℚ) : PlantHealthResult :=
  let mean_ndvi := stats.mean
  let min_ndvi := stats.min
  let max_ndvi := stats.max
  let ndvi_std : Option ℚ :=
    match min_ndvi, max_ndvi with
    | some mn, some mx => some ((mx - mn) / 4)
    | _, _ => none
  let hc := classify_plant_health mean_ndvi
  let ndvi_change_from_baseline : Option ℚ :=
    match baseline_ndvi, mean_ndvi with
    | some b, some m => if b ≠ 0 ∧ m ≠ 0 then some (m - b) else none
    | _, _ => none
  let stressed : Option ℚ × Option ℚ :=
    match min_ndvi, mean_ndvi with
    | some mn, some m =>
      if mn < stress_threshold then
        let pct : ℚ :=
          match ndvi_std with
          | some s =>
            if s ≠ 0 ∧ s > 0 then
              let z := (stress_threshold - m) / s
              if z > 0 then min 100 (max 0 (50 + z * 30))
              else max 0 (50 + z * 30)
            else if m > stress_threshold then 10 else 50
          | none => if m > stress_threshold then 10 else 50
        (some (boundary_area_ha * (pct / 100)), some pct)
      else (none, none)
    | _, _ => (none, none)
  let recommendations :=
    get_health_recommendations hc.1 mean_ndvi ndvi_change_from_baseline
  let alert_triggered : Bool := decide (hc.1 = "stressed" ∨ hc.1 = "critical")
  let severity : Option String :=
    if alert_triggered then
      if hc.1 = "critical" then some "critical"
      else
        match stressed.1 with
        | some a => if a ≠ 0 ∧ a > 10 then some "high" else some "medium"
        | none => some "medium"
    else none
  { customer_id := customer_id
    boundary_id := boundary_id
    boundary_name := boundary_name
    analysis_date := today
    boundary_area_ha := boundary_area_ha
    mean_ndvi := mean_ndvi
    min_ndvi := min_ndvi
    max_ndvi := max_ndvi
    ndvi_std := ndvi_std
    health_status := hc.1
    health_score := hc.2
    baseline_ndvi := baseline_ndvi
    ndvi_change_from_baseline := ndvi_change_from_baseline
    stressed_area_ha := stressed.1
    stressed_percentage := stressed.2
    recommendations := recommendations
    alert_triggered := alert_triggered
    severity := severity }

/-- The spec's severity order low < medium < high < critical, as a rank. -/
def severityRank (s : String) : Nat :=
  if s = "low" then 0
  else if s = "medium" then 1
  else if s = "high" then 2
  else 3

/-- C1 counterexample: on a null mean vegetation index the health classifier
returns the pair (unknown, 0) — the score is the integer 0, not null — and
the plant-health analyzer accordingly reports status unknown with score 0,
so the claimed score-null-iff-unknown pairing fails at this input. -/
theorem c1_counterexample :
    classify_plant_health none = ("unknown", 0) ∧
    (analyze_plant_health 0 "CUST" "B1" "Block" 100 ⟨none, none, none⟩ none
      (4/10)).health_status = "unknown" ∧
    (analyze_plant_health 0 "CUST" "B1" "Block" 100 ⟨none, none, none⟩ none
      (4/10)).health_score = 0 :=
  ⟨rfl, rfl, rfl⟩

/-- C1 (amended): on a null mean vegetation index the health classifier
returns status unknown paired with score 0, and the status is unknown
exactly when the input is null. -/
theorem c1_unknown_status_zero_score :
    (∀ v : Option ℚ, ((classify_plant_health v).1 = "unknown" ↔ v = none)) ∧
    classify_plant_health none = ("unknown", 0) := by
  constructor
  · intro v
    cases v with
    | none => simp [classify_plant_health]
    | some x =>
      simp only [classify_plant_health]
      split_ifs <;> simp
  · rfl

/-- C3: on previous mean 0.75 and recent mean 0.40 over a 1000 ha boundary
with the default thresholds (0.3 decrease, 0.5 ha minimum), the detector
computes affected percentage min(100, (0.35/0.75)x100) = 140/3 (about 46.7),
affected area 1400/3 ha (about 466.7), triggers the alert and classifies the
severity as critical. -/
theorem c3_deforestation_example :
    (detect_deforestation 0 "CUST001" "Block" 1000 ⟨some (3/4), none, none⟩
      ⟨some (2/5), none, none⟩ 30 (3/10) (1/2)).deforestation_percentage
        = some (140/3) ∧
    (detect_deforestation 0 "CUST001" "Block" 1000 ⟨some (3/4), none, none⟩
      ⟨some (2/5), none, none⟩ 30 (3/10) (1/2)).deforestation_area_ha
        = some (1400/3) ∧
    (detect_deforestation 0 "CUST001" "Block" 1000 ⟨some (3/4), none, none⟩
      ⟨some (2/5), none, none⟩ 30 (3/10) (1/2)).alert_triggered = true ∧
    (detect_deforestation 0 "CUST001" "Block" 1000 ⟨some (3/4), none, none⟩
      ⟨some (2/5), none, none⟩ 30 (3/10) (1/2)).severity = some "critical" := by
  norm_num [detect_deforestation, classify_severity, min_def]

/-- C5: for every hotspot count, both backends trigger the fire alert exactly
when the count is positive, and both assign severity critical when the count
is at least 5, high when it is positive but below 5, and null when it is
zero (in the gee backend the severity key is then absent). -/
theorem c5_fire_policy (today : Int) (cid bn : String) (db : Int) (count : Nat) :
    ((detect_fire_hotspots today cid bn db count).alert_triggered = true ↔
      0 < count) ∧
    (detect_fire_hotspots today cid bn db count).severity
      = fireSeveritySpec count ∧
    ((detect_fire_hotspots_gee today cid bn db count).alert_triggered = true ↔
      0 < count) ∧
    (detect_fire_hotspots_gee today cid bn db count).severity
      = fireSeveritySpec count := by
  unfold detect_fire_hotspots detect_fire_hotspots_gee fireSeveritySpec
  refine ⟨by simp, rfl, ?_, ?_⟩ <;> split_ifs <;> simp_all

/-- C6: when either period's mean vegetation index is unknown, the
deforestation detector returns a finding whose change, affected area,
affected percentage and severity are all null, with the alert flag false. -/
theorem c6_missing_data_inconclusive (today : Int) (cid bn : String) (area : ℚ)
    (sp sr : NdviStats) (db : Int) (thr ma : ℚ)
    (h : sp.mean = none ∨ sr.mean = none) :
    (detect_deforestation today cid bn area sp sr db thr ma).ndvi_change
      = none ∧
    (detect_deforestation today cid bn area sp sr db thr ma).deforestation_area_ha
      = none ∧
    (detect_deforestation today cid bn area sp sr db thr ma).deforestation_percentage
      = none ∧
    (detect_deforestation today cid bn area sp sr db thr ma).alert_triggered
      = false ∧
    (detect_deforestation today cid bn area sp sr db thr ma).severity = none := by
  obtain ⟨pm, pn, px⟩ := sp
  obtain ⟨rm, rn, rx⟩ := sr
  cases pm <;> cases rm <;> simp_all [detect_deforestation]

/-- C6 witness: a concrete run with the previous period's mean missing. -/
theorem c6_missing_data_witness :
    (detect_deforestation 0 "c" "b" 5 ⟨none, none, none⟩ ⟨some 1, none, none⟩
      30 (3/10) (1/2)).ndvi_change = none ∧
    (detect_deforestation 0 "c" "b" 5 ⟨none, none, none⟩ ⟨some 1, none, none⟩
      30 (3/10) (1/2)).deforestation_area_ha = none ∧
    (detect_deforestation 0 "c" "b" 5 ⟨none, none, none⟩ ⟨some 1, none, none⟩
      30 (3/10) (1/2)).deforestation_percentage = none ∧
    (detect_deforestation 0 "c" "b" 5 ⟨none, none, none⟩ ⟨some 1, none, none⟩
      30 (3/10) (1/2)).alert_triggered = false ∧
    (detect_deforestation 0 "c" "b" 5 ⟨none, none, none⟩ ⟨some 1, none, none⟩
      30 (3/10) (1/2)).severity = none :=
  c6_missing_data_inconclusive 0 "c" "b" 5 ⟨none, none, none⟩
    ⟨some 1, none, none⟩ 30 (3/10) (1/2) (Or.inl rfl)

/-- C9: for non-negative areas the severity classifier returns critical
exactly on areas of at least 10 ha, high on [5, 10), medium on [1, 5) and
low below 1 ha; the gee backend's copy agrees everywhere; and the severity
is monotonically non-decreasing in the area under the order
low < medium < high < critical. -/
theorem c9_severity_thresholds :
    (∀ a : ℚ, 0 ≤ a →
      ((classify_severity a = "critical" ↔ 10 ≤ a) ∧
       (classify_severity a = "high" ↔ 5 ≤ a ∧ a < 10) ∧
       (classify_severity a = "medium" ↔ 1 ≤ a ∧ a < 5) ∧
       (classify_severity a = "low" ↔ a < 1) ∧
       classify_severity_gee a = classify_severity a)) ∧
    (∀ a b : ℚ, 0 ≤ a → a ≤ b →
      severityRank (classify_severity a) ≤ severityRank (classify_severity b)) := by
  constructor
  · intro a ha
    unfold classify_severity classify_severity_gee
    split_ifs <;> refine ⟨?_, ?_, ?_, ?_, rfl⟩ <;>
      first
        | exact iff_of_true rfl (by linarith)
        | exact iff_of_true rfl (by constructor <;> linarith)
        | exact iff_of_false (by decide) (by intro hx; linarith)
  · intro a b ha hab
    unfold classify_severity
    split_ifs <;> first | decide | (exfalso; linarith)

/-- C9 witness: the theorem applied at the concrete areas 10, 1 and 5 ha. -/
theorem c9_severity_witness :
    (classify_severity 10 = "critical" ↔ (10:ℚ) ≤ 10) ∧
    severityRank (classify_severity 1) ≤ severityRank (classify_severity 5) :=
  ⟨(c9_severity_thresholds.1 10 (by norm_num)).1,
   c9_severity_thresholds.2 1 5 (by norm_num) (by norm_num)⟩

/-- C2 counterexample: fed a previous mean of 1.5 — outside the valid index
range [-1,1] — the deforestation engine does not fail the evaluation: it
returns a finding computed from the invalid value, here even one that
triggers an alert; and fed a negative boundary area it likewise returns a
finding. -/
theorem c2_counterexample :
    (detect_deforestation 0 "c" "b" 1000 ⟨some (3/2), none, none⟩
      ⟨some (1/2), none, none⟩ 30 (3/10) (1/2)).alert_triggered = true ∧
    (detect_deforestation 0 "c" "b" 1000 ⟨some (3/2), none, none⟩
      ⟨some (1/2), none, none⟩ 30 (3/10) (1/2)).ndvi_change = some 1 ∧
    (detect_deforestation 0 "c" "b" (-5) ⟨some (3/2), none, none⟩
      ⟨some (1/2), none, none⟩ 30 (3/10) (1/2)).ndvi_change = some 1 := by
  norm_num [detect_deforestation, classify_severity, min_def]

/-- C2 (amended): the engine performs no input validation and has no failure
path: on any invalid input — an out-of-range previous mean, or a negative
boundary area — it still returns a finding computed from the raw values: the
deforestation finding carries the change previous minus recent, and the
health finding carries the status classified from the raw mean. -/
theorem c2_no_input_validation (today : Int) (cid bid bn : String)
    (area : ℚ) (p r : ℚ) (pn px rn rx : Option ℚ) (db : Int) (thr ma st : ℚ)
    (h : 1 < p ∨ p < -1 ∨ area < 0) :
    (detect_deforestation today cid bn area ⟨some p, pn, px⟩ ⟨some r, rn, rx⟩
      db thr ma).ndvi_change = some (p - r) ∧
    (analyze_plant_health today cid bid bn area ⟨some p, pn, px⟩ none
      st).health_status = (classify_plant_health (some p)).1 := by
  constructor
  · unfold detect_deforestation
    dsimp only
    split_ifs <;> rfl
  · rfl

/-- C2 witness: the amended theorem at the out-of-range previous mean 1.5. -/
theorem c2_no_input_validation_witness :
    (1:ℚ) < 3/2 ∧
    ((detect_deforestation 0 "c" "b" 1000 ⟨some (3/2), none, none⟩
       ⟨some (1/2), none, none⟩ 30 (3/10) (1/2)).ndvi_change
         = some (3/2 - 1/2) ∧
     (analyze_plant_health 0 "c" "b1" "b" 1000 ⟨some (3/2), none, none⟩ none
       (4/10)).health_status = (classify_plant_health (some (3/2))).1) :=
  ⟨by norm_num,
   c2_no_input_validation 0 "c" "b1" "b" 1000 (3/2) (1/2) none none none none
     30 (3/10) (1/2) (4/10) (Or.inl (by norm_num))⟩

/-- C4 counterexample: with every caller-supplied input identical, two runs
of the deforestation detector at different internal clock readings disagree
on the finding's analysis date, and two runs of the health analyzer do too:
the analysis date is computed from `datetime.now()` inside the engine, not
supplied by the caller. -/
theorem c4_counterexample :
    (detect_deforestation 0 "c" "b" 1000 ⟨none, none, none⟩ ⟨none, none, none⟩
      30 (3/10) (1/2)).analysis_date ≠
    (detect_deforestation 1 "c" "b" 1000 ⟨none, none, none⟩ ⟨none, none, none⟩
      30 (3/10) (1/2)).analysis_date ∧
    (analyze_plant_health 0 "c" "b1" "b" 100 ⟨none, none, none⟩ none
      (4/10)).analysis_date ≠
    (analyze_plant_health 1 "c" "b1" "b" 100 ⟨none, none, none⟩ none
      (4/10)).analysis_date := by
  exact ⟨by decide, by decide⟩

/-- C4 (amended): the classifiers are pure functions of their arguments, and
the finding functions read the internal clock only for the date and period
fields: given identical statistics, every decision field of the
deforestation finding and of the health finding is identical across runs at
different clock readings. -/
theorem c4_decisions_clock_independent (t1 t2 : Int) (cid bid bn : String)
    (area : ℚ) (sp sr stats : NdviStats) (bl : Option ℚ) (db : Int)
    (thr ma st : ℚ) :
    ((detect_deforestation t1 cid bn area sp sr db thr ma).ndvi_change =
       (detect_deforestation t2 cid bn area sp sr db thr ma).ndvi_change ∧
     (detect_deforestation t1 cid bn area sp sr db thr ma).deforestation_area_ha =
       (detect_deforestation t2 cid bn area sp sr db thr ma).deforestation_area_ha ∧
     (detect_deforestation t1 cid bn area sp sr db thr ma).deforestation_percentage =
       (detect_deforestation t2 cid bn area sp sr db thr ma).deforestation_percentage ∧
     (detect_deforestation t1 cid bn area sp sr db thr ma).alert_triggered =
       (detect_deforestation t2 cid bn area sp sr db thr ma).alert_triggered ∧
     (detect_deforestation t1 cid bn area sp sr db thr ma).severity =
       (detect_deforestation t2 cid bn area sp sr db thr ma).severity) ∧
    ((analyze_plant_health t1 cid bid bn area stats bl st).health_status =
       (analyze_plant_health t2 cid bid bn area stats bl st).health_status ∧
     (analyze_plant_health t1 cid bid bn area stats bl st).health_score =
       (analyze_plant_health t2 cid bid bn area stats bl st).health_score ∧
     (analyze_plant_health t1 cid bid bn area stats bl st).ndvi_change_from_baseline =
       (analyze_plant_health t2 cid bid bn area stats bl st).ndvi_change_from_baseline ∧
     (analyze_plant_health t1 cid bid bn area stats bl st).stressed_area_ha =
       (analyze_plant_health t2 cid bid bn area stats bl st).stressed_area_ha ∧
     (analyze_plant_health t1 cid bid bn area stats bl st).stressed_percentage =
       (analyze_plant_health t2 cid bid bn area stats bl st).stressed_percentage ∧
     (analyze_plant_health t1 cid bid bn area stats bl st).recommendations =
       (analyze_plant_health t2 cid bid bn area stats bl st).recommendations ∧
     (analyze_plant_health t1 cid bid bn area stats bl st).alert_triggered =
       (analyze_plant_health t2 cid bid bn area stats bl st).alert_triggered ∧
     (analyze_plant_health t1 cid bid bn area stats bl st).severity =
       (analyze_plant_health t2 cid bid bn area stats bl st).severity) := by
  constructor
  · obtain ⟨pm, pn2, px2⟩ := sp
    obtain ⟨rm, rn2, rx2⟩ := sr
    cases pm <;> cases rm <;>
      (unfold detect_deforestation; dsimp only;
        first
          | exact ⟨rfl, rfl, rfl, rfl, rfl⟩
          | (split_ifs <;> exact ⟨rfl, rfl, rfl, rfl, rfl⟩))
  · exact ⟨rfl, rfl, rfl, rfl, rfl, rfl, rfl, rfl⟩

/-- C7: on mean 0.35, minimum 0.1 and maximum 0.5 with stress threshold 0.4
over a 100 ha boundary, the analyzer estimates the standard deviation as
(0.5 - 0.1)/4 = 0.1, the stressed percentage as
clamp(50 + 30 x 0.5, 0, 100) = 65 (from the z-score (0.4 - 0.35)/0.1 = 0.5)
and the stressed area as 65 ha. -/
theorem c7_stress_estimator_example :
    (analyze_plant_health 0 "CUST" "B1" "Block" 100
      ⟨some (35/100), some (1/10), some (1/2)⟩ none (4/10)).ndvi_std
        = some (1/10) ∧
    (analyze_plant_health 0 "CUST" "B1" "Block" 100
      ⟨some (35/100), some (1/10), some (1/2)⟩ none (4/10)).stressed_percentage
        = some 65 ∧
    (analyze_plant_health 0 "CUST" "B1" "Block" 100
      ⟨some (35/100), some (1/10), some (1/2)⟩ none (4/10)).stressed_area_ha
        = some 65 := by
  norm_num [analyze_plant_health, min_def, max_def]

/-- C10: presence of the baseline index and of the mean index is tested by
truthiness, so the valid in-range value 0.0 is treated as absent: the
delta-from-baseline stays null whenever either the baseline or the mean is
exactly 0, and the moderate-status young-palm recommendation — normally
added whenever the mean is below 0.45 — is suppressed at mean exactly 0. -/
theorem c10_zero_truthiness (today : Int) (cid bid bn : String) (area : ℚ)
    (mn mx : Option ℚ) (m bq : ℚ) (st : ℚ) (d : Option ℚ) :
    (analyze_plant_health today cid bid bn area ⟨some m, mn, mx⟩ (some 0)
      st).ndvi_change_from_baseline = none ∧
    (analyze_plant_health today cid bid bn area ⟨some 0, mn, mx⟩ (some bq)
      st).ndvi_change_from_baseline = none ∧
    get_health_recommendations "moderate" (some 0) d =
      ["Monitor closely over next 2 weeks",
       "Consider targeted fertilizer application"] ∧
    (∀ q : ℚ, 0 < q → q < 45/100 →
      get_health_recommendations "moderate" (some q) d =
        ["Monitor closely over next 2 weeks",
         "Consider targeted fertilizer application",
         "Young palms may need additional nutrients"]) := by
  refine ⟨?_, ?_, ?_, ?_⟩
  · simp [analyze_plant_health]
  · simp [analyze_plant_health]
  · simp only [get_health_recommendations]
    rw [if_neg (by decide), if_neg (by decide), if_pos trivial]
    simp
  · intro q hq hq45
    simp only [get_health_recommendations]
    rw [if_neg (by decide), if_neg (by decide), if_pos trivial,
      if_pos ⟨ne_of_gt hq, hq45⟩]
    rfl

/-- C10 witness: the truthiness suppression at baseline 0, and the theorem's
contrast branch at the nonzero mean 0.25, which does receive the young-palm
recommendation. -/
theorem c10_zero_truthiness_witness :
    (analyze_plant_health 0 "c" "b1" "b" 100 ⟨some (1/2), none, none⟩ (some 0)
      (4/10)).ndvi_change_from_baseline = none ∧
    get_health_recommendations "moderate" (some (1/4)) none =
      ["Monitor closely over next 2 weeks",
       "Consider targeted fertilizer application",
       "Young palms may need additional nutrients"] :=
  ⟨(c10_zero_truthiness 0 "c" "b1" "b" 100 none none (1/2) 0 (4/10) none).1,
   (c10_zero_truthiness 0 "c" "b1" "b" 100 none none (1/2) 0 (4/10)
     none).2.2.2 (1/4) (by norm_num) (by norm_num)⟩

/-- Left limit of a function that agrees with the linear map
c + (v - lo) x k on [lo, b): values within min(1/10, e/150) below b are
within e of s = c + (b - lo) x k, provided the slope k is positive and at
most 150 and the band reaches at least 1/10 below b. -/
lemma band_left_limit (f : ℚ → ℚ) (lo b c k s ε : ℚ) (hε : 0 < ε)
    (hk : 0 < k) (hk150 : k ≤ 150) (hlo : lo ≤ b - 1/10)
    (hband : ∀ v, lo ≤ v → v < b → f v = c + (v - lo) * k)
    (hs : c + (b - lo) * k = s) :
    ∃ δ > 0, ∀ v : ℚ, b - δ < v → v < b → |f v - s| < ε := by
  refine ⟨min (1/10) (ε/150), by positivity, ?_⟩
  intro v h1 h2
  have hm1 : min (1/10) (ε/150) ≤ 1/10 := min_le_left _ _
  have hm2 : min (1/10) (ε/150) ≤ ε/150 := min_le_right _ _
  have hvlo : lo ≤ v := by linarith
  have h2' : 0 < b - v := by linarith
  have hbv : b - v < ε/150 := by linarith
  have key : (b - v) * k ≤ (b - v) * 150 :=
    mul_le_mul_of_nonneg_left hk150 h2'.le
  have upper : (v - b) * k < 0 := mul_neg_of_neg_of_pos (by linarith) hk
  have hdiff : c + (v - lo) * k - s = (v - b) * k := by
    rw [← hs]; ring
  rw [hband v hvlo h2, abs_lt, hdiff]
  constructor
  · linarith
  · linarith

/-- C8: the pre-truncation score of `classify_plant_health` (the integer
score is its value under Python `int()`, first conjunct) is continuous from
the left at every band boundary: approaching 0.7, 0.5, 0.4, 0.3 and 0.2 from
below, the score tends to its value at the breakpoint — 70, 50, 40, 25 and
15 respectively. -/
theorem c8_health_score_band_continuity (ε : ℚ) (hε : 0 < ε) :
    (∀ v : ℚ, (classify_plant_health (some v)).2 = pyInt (healthScoreFormula v)) ∧
    (healthScoreFormula (7/10) = 70 ∧
      ∃ δ > 0, ∀ v : ℚ, 7/10 - δ < v → v < 7/10 →
        |healthScoreFormula v - 70| < ε) ∧
    (healthScoreFormula (1/2) = 50 ∧
      ∃ δ > 0, ∀ v : ℚ, 1/2 - δ < v → v < 1/2 →
        |healthScoreFormula v - 50| < ε) ∧
    (healthScoreFormula (2/5) = 40 ∧
      ∃ δ > 0, ∀ v : ℚ, 2/5 - δ < v → v < 2/5 →
        |healthScoreFormula v - 40| < ε) ∧
    (healthScoreFormula (3/10) = 25 ∧
      ∃ δ > 0, ∀ v : ℚ, 3/10 - δ < v → v < 3/10 →
        |healthScoreFormula v - 25| < ε) ∧
    (healthScoreFormula (1/5) = 15 ∧
      ∃ δ > 0, ∀ v : ℚ, 1/5 - δ < v → v < 1/5 →
        |healthScoreFormula v - 15| < ε) := by
  refine ⟨?_, ⟨?_, ?_⟩, ⟨?_, ?_⟩, ⟨?_, ?_⟩, ⟨?_, ?_⟩, ⟨?_, ?_⟩⟩
  · intro v
    simp only [classify_plant_health, healthScoreFormula]
    split_ifs <;> rfl
  · norm_num [healthScoreFormula, min_def]
  · refine band_left_limit healthScoreFormula (1/2) (7/10) 50 100 70 ε hε
      (by norm_num) (by norm_num) (by norm_num) ?_ (by norm_num)
    intro v h1 h2
    simp only [healthScoreFormula]
    rw [if_neg (by intro hx; linarith), if_pos (by linarith)]
    norm_num
  · norm_num [healthScoreFormula]
  · refine band_left_limit healthScoreFormula (2/5) (1/2) 40 100 50 ε hε
      (by norm_num) (by norm_num) (by norm_num) ?_ (by norm_num)
    intro v h1 h2
    simp only [healthScoreFormula]
    rw [if_neg (by intro hx; linarith), if_neg (by intro hx; linarith),
      if_pos (by linarith)]
    norm_num
  · norm_num [healthScoreFormula]
  · refine band_left_limit healthScoreFormula (3/10) (2/5) 25 150 40 ε hε
      (by norm_num) (by norm_num) (by norm_num) ?_ (by norm_num)
    intro v h1 h2
    simp only [healthScoreFormula]
    rw [if_neg (by intro hx; linarith), if_neg (by intro hx; linarith),
      if_neg (by intro hx; linarith), if_pos (by linarith)]
  · norm_num [healthScoreFormula]
  · refine band_left_limit healthScoreFormula (1/5) (3/10) 15 100 25 ε hε
      (by norm_num) (by norm_num) (by norm_num) ?_ (by norm_num)
    intro v h1 h2
    simp only [healthScoreFormula]
    rw [if_neg (by intro hx; linarith), if_neg (by intro hx; linarith),
      if_neg (by intro hx; linarith), if_neg (by intro hx; linarith),
      if_pos (by linarith)]
    norm_num
  · norm_num [healthScoreFormula]
  · refine band_left_limit healthScoreFormula 0 (1/5) 0 75 15 ε hε
      (by norm_num) (by norm_num) (by norm_num) ?_ (by norm_num)
    intro v h1 h2
    simp only [healthScoreFormula]
    rw [if_neg (by intro hx; linarith), if_neg (by intro hx; linarith),
      if_neg (by intro hx; linarith), if_neg (by intro hx; linarith),
      if_neg (by intro hx; linarith)]
    rw [max_eq_right (mul_nonneg h1 (by norm_num))]
    ring

/-- C8 witness: the band-boundary continuity statement at tolerance 1. -/
theorem c8_health_score_witness :
    (∀ v : ℚ, (classify_plant_health (some v)).2 = pyInt (healthScoreFormula v)) ∧
    (healthScoreFormula (7/10) = 70 ∧
      ∃ δ > 0, ∀ v : ℚ, 7/10 - δ < v → v < 7/10 →
        |healthScoreFormula v - 70| < 1) ∧
    (healthScoreFormula (1/2) = 50 ∧
      ∃ δ > 0, ∀ v : ℚ, 1/2 - δ < v → v < 1/2 →
        |healthScoreFormula v - 50| < 1) ∧
    (healthScoreFormula (2/5) = 40 ∧
      ∃ δ > 0, ∀ v : ℚ, 2/5 - δ < v → v < 2/5 →
        |healthScoreFormula v - 40| < 1) ∧
    (healthScoreFormula (3/10) = 25 ∧
      ∃ δ > 0, ∀ v : ℚ, 3/10 - δ < v → v < 3/10 →
        |healthScoreFormula v - 25| < 1) ∧
    (healthScoreFormula (1/5) = 15 ∧
      ∃ δ > 0, ∀ v : ℚ, 1/5 - δ < v → v < 1/5 →
        |healthScoreFormula v - 15| < 1) :=
  c8_health_score_band_continuity 1 (by norm_num)

end Satteli
